import Mathlib

/-! Verification of the AI Travel Planner aggregation pipeline.

A shallow embedding, in Lean 4, of the request-aggregation flow of
`app.py` (the single source file of the repository): the weather fetcher,
the geocoder, the hotel finder, the airport-code resolver, the flight
finder, the trip-narrative generator, and the presentation wiring in
`main`.

External HTTP calls are modelled by passing the (already parsed) upstream
response as an explicit argument of type `Except Err …`: `Except.error e`
stands for any exception raised while performing the call or parsing its
payload (network error, non-2xx status via `raise_for_status`, malformed
JSON), and `Except.ok v` for a successfully parsed payload.  Python
dictionaries with known key sets become structures whose fields are
`Option`s (`none` = key absent), and `dict.get` with a default becomes
`Option.getD`; string-keyed tag dictionaries become association lists.
JSON numbers that the code merely passes through (coordinates) are
modelled by `Int`, since no arithmetic is ever performed on them.
Python functions that cannot raise are total Lean functions.
-/

namespace TravelPlanner

/-- The type of exceptions/error messages raised by an external call. -/
abbrev Err := String

/-! ## Python string helpers

`app.py` uses `str.lower`, `str.upper` and the slice `s[:3]`.  Strings in
the program (city names, IATA codes, tag values) are ASCII; we model the
case maps on the ASCII range, the identity elsewhere, and the slice as a
prefix of at most three characters (Python slices never raise). -/

/-- ASCII lower-casing of one character, as `str.lower` acts on ASCII. -/
def lowerChar (c : Char) : Char :=
  if 'A' ≤ c ∧ c ≤ 'Z' then Char.ofNat (c.toNat + 32) else c

/-- ASCII upper-casing of one character, as `str.upper` acts on ASCII. -/
def upperChar (c : Char) : Char :=
  if 'a' ≤ c ∧ c ≤ 'z' then Char.ofNat (c.toNat - 32) else c

/-- Python `s.lower()` (ASCII fragment). -/
def pyLower (s : String) : String := ⟨s.data.map lowerChar⟩

/-- Python `s.upper()` (ASCII fragment). -/
def pyUpper (s : String) : String := ⟨s.data.map upperChar⟩

/-- The Python slice `s[:3]`: the first three characters, or the whole
string when it is shorter; never raises. -/
def pySlice3 (s : String) : String := ⟨s.data.take 3⟩

/-! ## Airport Code Resolver (`get_airport_code`, app.py lines 158–174) -/

/-- The static city → IATA table of `get_airport_code`, in source order. -/
def airport_codes : List (String × String) :=
  [("tokyo", "HND"),
   ("osaka", "KIX"),
   ("kyoto", "KIX"),
   ("delhi", "DEL"),
   ("mumbai", "BOM"),
   ("udaipur", "UDR"),
   ("london", "LHR"),
   ("paris", "CDG"),
   ("new york", "JFK"),
   ("singapore", "SIN"),
   ("bangkok", "BKK")]

/-- The resolver `get_airport_code(city)`:
`airport_codes.get(city.lower(), city[:3].upper())`. -/
def get_airport_code (city : String) : String :=
  (airport_codes.lookup (pyLower city)).getD (pyUpper (pySlice3 city))

example : get_airport_code "ToKYo" = "HND" := by decide
example : get_airport_code "Lagos" = "LAG" := by decide
example : get_airport_code "ab" = "AB" := by decide
example : get_airport_code "" = "" := by decide

/-! ## Geocoder (`get_city_coordinates`, app.py lines 44–65)

The Nominatim response parses to a JSON array; each element used by the
code carries `"lat"` and `"lon"` fields (strings, converted with
`float`).  The code returns `(float(data[0]["lat"]), float(data[0]["lon"]))`
when the array is non-empty, `(None, None)` when it is empty, and
`(None, None)` from the `except` branch on any failure (which also covers
a malformed first element, since `float`/indexing raise inside the `try`). -/

/-- One geocoding result: the parsed latitude/longitude of `data[0]`. -/
structure GeoResult where
  lat : Int
  lon : Int
deriving DecidableEq

/-- The geocoder `get_city_coordinates(city)`: the coordinate pair extracted from the
geocoding response, or the null pair `(none, none)` on an empty result
set or a failed call. -/
def get_city_coordinates (resp : Except Err (List GeoResult)) :
    Option Int × Option Int :=
  match resp with
  | .ok (r :: _) => (some r.lat, some r.lon)
  | .ok [] => (none, none)
  | .error _ => (none, none)

/-! ## Hotel Finder (`search_hotels`, app.py lines 67–123) -/

/-- One element of the Overpass response's `"elements"` list: a type
discriminator (`"node"`, `"way"`, `"relation"`), a tag dictionary and,
for nodes, coordinates.  Every field is read with `dict.get`, so each is
optional here. -/
structure OSMElement where
  type : Option String
  tags : Option (List (String × String))
  lat : Option Int
  lon : Option Int
deriving DecidableEq

/-- The parsed Overpass payload: `data.get("elements", [])`. -/
structure OverpassResponse where
  elements : Option (List OSMElement)
deriving DecidableEq

/-- A hotel record as built by `search_hotels` (name, flattened address,
stars, phone, website, coordinates). -/
structure Hotel where
  name : String
  street : String
  city : String
  country : String
  stars : String
  phone : String
  website : String
  lat : Option Int
  lon : Option Int
deriving DecidableEq

/-- Dictionary access `tags.get(key, default)` on the tag dictionary. -/
def tagGet (tags : List (String × String)) (key default : String) : String :=
  (tags.lookup key).getD default

/-- The test `element.get("type") == "node"`. -/
def isNodeElem (e : OSMElement) : Bool :=
  e.type == some "node"

/-- The hotel record built from one node element (app.py lines 99–114):
every field is extracted with an independent default. -/
def mkHotel (city : String) (e : OSMElement) : Hotel :=
  let tags := e.tags.getD []
  { name := tagGet tags "name" "Unnamed Hotel"
    street := tagGet tags "addr:street" "Street not available"
    city := tagGet tags "addr:city" city
    country := tagGet tags "addr:country" "Country not available"
    stars := tagGet tags "stars" "N/A"
    phone := tagGet tags "phone" "Phone not available"
    website := tagGet tags "website" "Website not available"
    lat := e.lat
    lon := e.lon }

/-- The `for element in data.get("elements", [])[:5]` loop of
`search_hotels` (app.py lines 96–118), applied to the already truncated
element list: non-node elements are skipped, each node appends a record,
and the loop breaks as soon as three records have been built. -/
def hotelsLoop (city : String) : List OSMElement → List Hotel → List Hotel
  | [], hotels => hotels
  | e :: rest, hotels =>
    if isNodeElem e then
      let hotels' := hotels ++ [mkHotel city e]
      if hotels'.length ≥ 3 then hotels' else hotelsLoop city rest hotels'
    else
      hotelsLoop city rest hotels

/-- The hotel search `search_hotels(city)`.  The coordinate pair is the geocoder's output;
the Overpass response is passed explicitly.  The second component records
whether the spatial (Overpass) query was issued: the code returns `[]`
before the request when either coordinate is `None`, and `[]` from the
`except` branch when the issued request fails. -/
def search_hotels (city : String) (coords : Option Int × Option Int)
    (resp : Except Err OverpassResponse) : List Hotel × Bool :=
  match coords with
  | (some _, some _) =>
    match resp with
    | .ok data => (hotelsLoop city ((data.elements.getD []).take 5) [], true)
    | .error _ => ([], true)
  | _ => ([], false)

/-! ## Flight Finder (`search_flights`, app.py lines 125–156)

Each entry of the response's `"data"` list is read through two levels of
`dict.get`: `flight.get("airline", {}).get("name", "Unknown Airline")`,
and similarly for the flight number and the scheduled departure/arrival
timestamps, each with default `"Unknown"`. -/

/-- The `"airline"` sub-object of a flight entry. -/
structure AirlineObj where
  name : Option String
deriving DecidableEq

/-- The `"flight"` sub-object of a flight entry. -/
structure FlightObj where
  number : Option String
deriving DecidableEq

/-- The `"departure"` sub-object of a flight entry. -/
structure DepartureObj where
  scheduled : Option String
deriving DecidableEq

/-- The `"arrival"` sub-object of a flight entry. -/
structure ArrivalObj where
  scheduled : Option String
deriving DecidableEq

/-- One entry of the flights response's `"data"` list. -/
structure FlightEntry where
  airline : Option AirlineObj
  flight : Option FlightObj
  departure : Option DepartureObj
  arrival : Option ArrivalObj
deriving DecidableEq

/-- The parsed AviationStack payload: `data.get("data", [])`. -/
structure FlightsResponse where
  data : Option (List FlightEntry)
deriving DecidableEq

/-- A flight record as appended by `search_flights` (app.py 147–152). -/
structure FlightRecord where
  airline : String
  flight_number : String
  departure : String
  arrival : String
deriving DecidableEq

/-- The record built from one entry (app.py lines 142–152). -/
def mkFlightRecord (f : FlightEntry) : FlightRecord :=
  { airline := ((f.airline.getD ⟨none⟩).name).getD "Unknown Airline"
    flight_number := ((f.flight.getD ⟨none⟩).number).getD "Unknown"
    departure := ((f.departure.getD ⟨none⟩).scheduled).getD "Unknown"
    arrival := ((f.arrival.getD ⟨none⟩).scheduled).getD "Unknown" }

/-- The flight search `search_flights(origin, destination)`: the
`for flight in data.get("data", [])[:3]` loop appends one record per
entry; the `except` branch returns `[]` on any failure.  The origin and
destination codes only parameterize the HTTP request, which is modelled
by the explicit response argument. -/
def search_flights (resp : Except Err FlightsResponse) : List FlightRecord :=
  match resp with
  | .ok data => ((data.data.getD []).take 3).map mkFlightRecord
  | .error _ => []

/-! ## Weather Fetcher (`get_weather_data`, app.py lines 27–42)

The parsed weather payload is a JSON object; `main` reads
`weather_data.get("main", {}).get("temp")` and
`weather_data.get("weather", [{}])[0].get("description")`, after testing
the dictionary for truthiness (`if weather_data:`).  `WeatherData.empty`
models the empty dictionary `{}` (falsy); `WeatherData.obj` models any
non-empty dictionary (truthy), with `none` for an absent key. -/

/-- The `"main"` sub-object of the weather payload. -/
structure WMain where
  temp : Option Int
deriving DecidableEq

/-- One entry of the `"weather"` list of the weather payload. -/
structure WDesc where
  description : Option String
deriving DecidableEq

/-- The parsed weather payload: the empty dictionary, or a non-empty
dictionary with optional `"main"` and `"weather"` keys. -/
inductive WeatherData where
  | empty : WeatherData
  | obj (main : Option WMain) (weather : Option (List WDesc)) : WeatherData
deriving DecidableEq

/-- The weather fetch `get_weather_data(city)`: the parsed payload on success, the empty
dictionary `{}` from the `except` branch on any failure. -/
def get_weather_data (resp : Except Err WeatherData) : WeatherData :=
  match resp with
  | .ok d => d
  | .error _ => .empty

/-! ## Trip Narrative Generator (`generate_trip_plan`, app.py 176–193) -/

/-- A chat message sent to the language model. -/
inductive Message where
  | system (content : String) : Message
  | human (content : String) : Message
deriving DecidableEq

/-- The fixed system instruction of `generate_trip_plan`. -/
def system_prompt : String :=
  "You are a knowledgeable travel advisor. Provide detailed information about the city, including:
    1. A paragraph about the city's cultural and historical significance
    2. Major attractions and must-visit places
    3. Local cuisine recommendations
    4. Best areas to stay
    5. Transportation tips
    6. Cultural etiquette and customs
    Format the response in a clear, organized manner."

/-- The message list `generate_trip_plan` sends to the model. -/
def trip_messages (city : String) (days : Nat) (month : String) : List Message :=
  [.system system_prompt,
   .human ("Create a " ++ toString days ++ "-day trip plan for " ++ city
     ++ " in " ++ month ++ ".")]

/-- The model's reply object; `.content` is the free-text narrative. -/
structure LLMResponse where
  content : String
deriving DecidableEq

/-- The narrative call `generate_trip_plan(city, days, month)`: builds the messages, invokes
the model (the `llm` argument), and returns `response.content`.  There is
no `try`/`except` here: a failure of the model call propagates unchanged
to the caller. -/
def generate_trip_plan (llm : List Message → Except Err LLMResponse)
    (city : String) (days : Nat) (month : String) : Except Err String :=
  match llm (trip_messages city days month) with
  | .ok r => .ok r.content
  | .error e => .error e

/-! ## Presentation Layer (`main`, app.py lines 195–259)

Each rendered block (a subheader together with the `st.write` lines under
it) is modelled as one `Section`.  `Section.weatherUnavailable` is the
"weather not available" notice the specification describes; it is
declared so that its presence or absence in the rendered output can be
stated, and the theorems below settle whether the code ever emits it. -/

/-- One rendered block of the results page. -/
inductive Section where
  | weatherInfo (temp : Option Int) (desc : Option String) : Section
  | weatherUnavailable : Section
  | tripPlan (text : String) : Section
  | hotelList (hotels : List Hotel) : Section
  | hotelsUnavailable : Section
  | flightList (flights : List FlightRecord) : Section
  | flightsUnavailable : Section
deriving DecidableEq

/-- The weather block of `main` (app.py lines 216–221): rendered only
when `weather_data` is truthy (a non-empty dictionary); there is no
`else` branch.  Inside the block,
`weather_data.get("weather", [{}])[0]` raises `IndexError` when the
`"weather"` key is present but maps to an empty list; that uncaught
exception is the `Except.error` case. -/
def renderWeatherSection : WeatherData → Except Err (List Section)
  | .empty => .ok []
  | .obj main weather =>
    let temp := (main.getD ⟨none⟩).temp
    match weather.getD [⟨none⟩] with
    | [] => .error "IndexError: list index out of range"
    | d :: _ => .ok [.weatherInfo temp d.description]

/-- The hotel block of `main` (app.py lines 231–245): the hotel list when
non-empty, otherwise the "Could not fetch hotel data" warning. -/
def hotelSections (hotels : List Hotel) : List Section :=
  match hotels with
  | [] => [.hotelsUnavailable]
  | hs => [.hotelList hs]

/-- The flight block of `main` (app.py lines 253–259): the flight list
when non-empty, otherwise the "Could not fetch real-time flight data"
warning. -/
def flightSections (flights : List FlightRecord) : List Section :=
  match flights with
  | [] => [.flightsUnavailable]
  | fs => [.flightList fs]

/-- The body of `main`'s button handler (app.py lines 213–259), with
every upstream response passed explicitly.  The weather, geocoding,
hotel and flight calls absorb their own failures; the narrative call
does not, so its error — like the `IndexError` of the weather block —
aborts the rest of the rendering (`Except.error`). -/
def mainRender (city : String) (days : Nat) (month origin_city : String)
    (weatherResp : Except Err WeatherData)
    (llm : List Message → Except Err LLMResponse)
    (geoResp : Except Err (List GeoResult))
    (overpassResp : Except Err OverpassResponse)
    (flightsApi : String → String → Except Err FlightsResponse) :
    Except Err (List Section) :=
  let weather_data := get_weather_data weatherResp
  match renderWeatherSection weather_data with
  | .error e => .error e
  | .ok weatherSecs =>
    match generate_trip_plan llm city days month with
    | .error e => .error e
    | .ok plan =>
      let hotels := (search_hotels city (get_city_coordinates geoResp) overpassResp).1
      let origin_code := get_airport_code origin_city
      let dest_code := get_airport_code city
      let flights := search_flights (flightsApi origin_code dest_code)
      .ok (weatherSecs ++ [.tripPlan plan]
        ++ hotelSections hotels ++ flightSections flights)

/-! ## Closed form of the hotel loop -/

/-- The hotel loop builds exactly the records of the first
`3 - acc.length` node elements of its input (for an accumulator still
below the three-record cap). -/
theorem hotelsLoop_closed (city : String) (l : List OSMElement) :
    ∀ acc : List Hotel, acc.length < 3 →
      hotelsLoop city l acc =
        acc ++ (((l.filter isNodeElem).take (3 - acc.length)).map (mkHotel city)) := by
  induction l with
  | nil =>
    intro acc _
    simp [hotelsLoop]
  | cons e rest ih =>
    intro acc hacc
    by_cases he : isNodeElem e
    · obtain ⟨k, hk⟩ : ∃ k, 3 - acc.length = k + 1 :=
        ⟨2 - acc.length, by omega⟩
      rw [List.filter_cons_of_pos he, hk, List.take_succ_cons, List.map_cons]
      by_cases h3 : (acc ++ [mkHotel city e]).length ≥ 3
      · have h2 : acc.length = 2 := by
          rw [List.length_append] at h3
          simp at h3
          omega
        have hk0 : k = 0 := by omega
        subst hk0
        simp only [hotelsLoop, he, if_true, h3, List.take_zero, List.map_nil]
      · have hlt : (acc ++ [mkHotel city e]).length < 3 := by omega
        have hk2 : 3 - (acc ++ [mkHotel city e]).length = k := by
          rw [List.length_append]
          simp
          omega
        simp only [hotelsLoop, he, if_true, h3, if_false]
        rw [ih _ hlt, hk2]
        simp
    · rw [List.filter_cons_of_neg he]
      simp only [hotelsLoop, he, if_false]
      exact ih acc hacc

/-- On a successful query, `search_hotels` returns the records of the first three
node elements among the first five elements of the response. -/
theorem search_hotels_ok (city : String) (a b : Int) (r : OverpassResponse) :
    (search_hotels city (some a, some b) (Except.ok r)).1 =
      ((((r.elements.getD []).take 5).filter isNodeElem).take 3).map (mkHotel city) := by
  show hotelsLoop city ((r.elements.getD []).take 5) [] = _
  rw [hotelsLoop_closed city _ [] (by simp)]
  simp

/-! ## The spec's reading of the hotel candidate set

The specification describes the candidate set as "the first five
point-type results": filter to nodes first, then truncate to five.  The
code truncates the raw element list to five first and filters afterwards
(`data.get("elements", [])[:5]`, then the `type == "node"` test).  The
following definition follows the specification's words, for comparison
with `search_hotels`. -/

/-- The hotel search as the specification words it: the candidate set is
the first five node-type results of the response, with the same
stop-at-three loop and the same record construction. -/
def search_hotels_spec (city : String) (coords : Option Int × Option Int)
    (resp : Except Err OverpassResponse) : List Hotel × Bool :=
  match coords with
  | (some _, some _) =>
    match resp with
    | .ok data =>
      (hotelsLoop city (((data.elements.getD []).filter isNodeElem).take 5) [], true)
    | .error _ => ([], true)
  | _ => ([], false)

/-- A non-node (way) element tagged as a hotel. -/
def wayElem : OSMElement :=
  ⟨some "way", some [("name", "Polygon Hotel")], none, none⟩

/-- A node element appearing only in sixth position of a response. -/
def lateNode : OSMElement :=
  ⟨some "node", some [("name", "Late Hotel")], some 10, some 20⟩

/-- A response whose only node-type element sits after five way
elements. -/
def lateNodeResponse : OverpassResponse :=
  ⟨some [wayElem, wayElem, wayElem, wayElem, wayElem, lateNode]⟩

/-! ## Claims -/

/-- C1: for every spatial-query response, `search_hotels` returns at most
3 hotel records, even when the response has more than 3 qualifying
elements, and elements whose type discriminator is not `"node"`
contribute no record: deleting the non-node elements of the considered
window changes nothing. -/
theorem hotel_finder_limit_and_node_filter :
    ∀ (city : String) (coords : Option Int × Option Int)
      (resp : Except Err OverpassResponse),
      ((search_hotels city coords resp).1.length ≤ 3) ∧
      ∀ els : List OSMElement,
        (search_hotels city coords (Except.ok ⟨some els⟩)).1 =
          (search_hotels city coords
            (Except.ok ⟨some ((els.take 5).filter isNodeElem)⟩)).1 := by
  intro city coords resp
  obtain ⟨oa, ob⟩ := coords
  constructor
  · cases oa with
    | none => simp [search_hotels]
    | some a =>
      cases ob with
      | none => simp [search_hotels]
      | some b =>
        cases resp with
        | error e => simp [search_hotels]
        | ok r =>
          rw [search_hotels_ok]
          simp [List.length_take]
  · intro els
    cases oa with
    | none => rfl
    | some a =>
      cases ob with
      | none => rfl
      | some b =>
        rw [search_hotels_ok, search_hotels_ok]
        have h5 : ((els.take 5).filter isNodeElem).length ≤ 5 :=
          le_trans (List.length_filter_le _ _) (List.length_take_le 5 els)
        have hself : ((els.take 5).filter isNodeElem).filter isNodeElem =
            (els.take 5).filter isNodeElem :=
          List.filter_eq_self.mpr (fun a ha => (List.mem_filter.mp ha).2)
        simp only [Option.getD_some]
        rw [List.take_of_length_le h5, hself]

/-- C2 (counterexample): on a response whose only node element follows
five non-node elements, the code builds no record, while the
specification's candidate set (the first five node-type results) yields
one. -/
theorem hotel_candidate_window_cex :
    (search_hotels "Paris" (some 1, some 2) (Except.ok lateNodeResponse)).1 = [] ∧
    (search_hotels_spec "Paris" (some 1, some 2) (Except.ok lateNodeResponse)).1 =
      [mkHotel "Paris" lateNode] := by
  constructor
  · rfl
  · rfl

/-- C2 (amended): the candidate set is the node-type elements among the
first five elements of the response — truncation to five precedes the
point-type filter — and processing stops once three records have been
built. -/
theorem hotel_candidate_window_amended :
    ∀ (city : String) (a b : Int) (r : OverpassResponse),
      (search_hotels city (some a, some b) (Except.ok r)).1 =
        ((((r.elements.getD []).take 5).filter isNodeElem).take 3).map (mkHotel city) := by
  intro city a b r
  exact search_hotels_ok city a b r

/-- C3: `get_airport_code` is a pure table lookup keyed on the
lower-cased input: every casing of "Tokyo" resolves to "HND", and every
city name missing from the table falls back to its first three
characters upper-cased — in particular the unmapped "Lagos" gives
"LAG". -/
theorem airport_code_case_insensitive :
    (∀ s : String, pyLower s = "tokyo" → get_airport_code s = "HND") ∧
    (∀ s : String, airport_codes.lookup (pyLower s) = none →
      get_airport_code s = pyUpper (pySlice3 s)) ∧
    get_airport_code "Lagos" = "LAG" := by
  refine ⟨?_, ?_, by decide⟩
  · intro s h
    unfold get_airport_code
    rw [h]
    rfl
  · intro s h
    unfold get_airport_code
    rw [h]
    rfl

/-- C3 witness: the mixed-case spelling "tOKyO" lower-cases to "tokyo"
and resolves to "HND", and "Lagos" misses the table and falls back to
its upper-cased three-character slice. -/
theorem airport_code_case_insensitive_witness :
    pyLower "tOKyO" = "tokyo" ∧ get_airport_code "tOKyO" = "HND" ∧
    airport_codes.lookup (pyLower "Lagos") = none ∧
    get_airport_code "Lagos" = pyUpper (pySlice3 "Lagos") :=
  ⟨by decide, airport_code_case_insensitive.1 "tOKyO" (by decide),
   by decide, airport_code_case_insensitive.2.1 "Lagos" (by decide)⟩

/-- C4: whenever the geocoder yields the null coordinate pair — which it
does both on a failed call and on an empty result set — `search_hotels`
returns the empty list with the spatial query not issued. -/
theorem hotel_finder_skips_query_without_coords :
    (∀ (city : String) (g : Except Err (List GeoResult))
       (resp : Except Err OverpassResponse),
       get_city_coordinates g = (none, none) →
       search_hotels city (get_city_coordinates g) resp = ([], false)) ∧
    (∀ e : Err, get_city_coordinates (Except.error e) = (none, none)) ∧
    get_city_coordinates (Except.ok []) = (none, none) := by
  refine ⟨?_, fun e => rfl, rfl⟩
  intro city g resp h
  rw [h]
  rfl

/-- C4 witness: a failed geocoding call makes `search_hotels` return the
empty list without issuing the spatial query, whatever the Overpass
response would have been. -/
theorem hotel_finder_skips_query_without_coords_witness :
    search_hotels "Atlantis" (get_city_coordinates (Except.error "timeout"))
      (Except.ok ⟨some [lateNode]⟩) = ([], false) :=
  hotel_finder_skips_query_without_coords.1 "Atlantis" (Except.error "timeout")
    (Except.ok ⟨some [lateNode]⟩) rfl

/-- C10: `get_airport_code` maps the empty string to the empty string,
and any non-empty name of fewer than three characters that misses the
table to the whole name upper-cased — a string of the same length,
shorter than three characters, not a three-letter code.  (Being a total
Lean function, it cannot raise.) -/
theorem airport_code_short_fallback :
    get_airport_code "" = "" ∧
    ∀ s : String, s ≠ "" → s.length < 3 →
      airport_codes.lookup (pyLower s) = none →
      get_airport_code s = pyUpper s ∧
      (get_airport_code s).length = s.length ∧
      (get_airport_code s).length < 3 := by
  refine ⟨by decide, ?_⟩
  intro s hne hlen hlook
  have h1 : get_airport_code s = pyUpper (pySlice3 s) := by
    unfold get_airport_code
    rw [hlook]
    rfl
  have hdata : s.data.length = s.length := rfl
  have h2 : pySlice3 s = s := by
    show (⟨s.data.take 3⟩ : String) = s
    rw [List.take_of_length_le (by omega)]
  have h3 : (pyUpper s).length = s.length := by
    show (s.data.map upperChar).length = s.length
    rw [List.length_map]
    exact hdata
  rw [h1, h2]
  exact ⟨rfl, h3, by omega⟩

/-- C10 witness: the two-character city "ab" resolves to "AB", a
two-character string. -/
theorem airport_code_short_fallback_witness :
    get_airport_code "ab" = "AB" ∧ (get_airport_code "ab").length = 2 := by
  have h := airport_code_short_fallback.2 "ab" (by decide) (by decide) (by decide)
  exact ⟨h.1.trans (by decide), h.2.1.trans (by decide)⟩

/-- C5: `generate_trip_plan` has no local error handling — an error of the
model call propagates out unchanged — and in `main` that error aborts the
whole remaining rendering (the result is an error, so the hotel and
flight sections that come after the narrative are never rendered); the
weather, geocoding, hotel and flight fetchers, by contrast, absorb every
error of their own call into an empty/null result. -/
theorem narrative_failure_propagates :
    ∀ (llm : List Message → Except Err LLMResponse) (city : String)
      (days : Nat) (month origin_city : String)
      (wr : Except Err WeatherData) (gr : Except Err (List GeoResult))
      (ovr : Except Err OverpassResponse)
      (fa : String → String → Except Err FlightsResponse)
      (ws : List Section) (e : Err),
      llm (trip_messages city days month) = Except.error e →
      renderWeatherSection (get_weather_data wr) = Except.ok ws →
      generate_trip_plan llm city days month = Except.error e ∧
      mainRender city days month origin_city wr llm gr ovr fa = Except.error e ∧
      (∀ e' : Err,
        get_weather_data (Except.error e') = WeatherData.empty ∧
        get_city_coordinates (Except.error e') = (none, none) ∧
        (∀ (c : String) (g : Option Int × Option Int),
          (search_hotels c g (Except.error e')).1 = []) ∧
        search_flights (Except.error e') = []) := by
  intro llm city days month origin_city wr gr ovr fa ws e hllm hws
  have hgen : generate_trip_plan llm city days month = Except.error e := by
    unfold generate_trip_plan
    rw [hllm]
  refine ⟨hgen, ?_, ?_⟩
  · unfold mainRender
    simp only [hws, hgen]
  · intro e'
    refine ⟨rfl, rfl, ?_, rfl⟩
    intro c g
    obtain ⟨oa, ob⟩ := g
    cases oa <;> cases ob <;> rfl

/-- C5 witness: with a failing model call and every other upstream call
also failing, the pipeline result is exactly the model's error. -/
theorem narrative_failure_propagates_witness :
    mainRender "Tokyo" 3 "April" "London" (Except.ok WeatherData.empty)
      (fun _ => Except.error "model rate limit") (Except.error "geocoder down")
      (Except.error "overpass down") (fun _ _ => Except.error "flights down") =
      Except.error "model rate limit" :=
  (narrative_failure_propagates (fun _ => Except.error "model rate limit")
    "Tokyo" 3 "April" "London" (Except.ok WeatherData.empty)
    (Except.error "geocoder down") (Except.error "overpass down")
    (fun _ _ => Except.error "flights down") [] "model rate limit" rfl rfl).2.1

/-- C6: `search_flights` returns at most 3 records whatever the length of
the upstream data list, and returns the empty list on any failed call;
being a total function of the response, it never raises. -/
theorem flight_finder_limit_and_failure :
    ∀ resp : Except Err FlightsResponse,
      (search_flights resp).length ≤ 3 ∧
      ∀ e : Err, search_flights (Except.error e) = [] := by
  intro resp
  refine ⟨?_, fun e => rfl⟩
  cases resp with
  | error e => simp [search_flights]
  | ok d =>
    simp only [search_flights, List.length_map]
    exact List.length_take_le 3 _

/-- C7 (counterexample): on a failed weather call, and equally on a
successful call returning the empty object, `main` renders no weather
block at all — the output section list is empty, so in particular no
"not available" notice is rendered, contrary to the claim. -/
theorem weather_section_no_notice_cex :
    renderWeatherSection (get_weather_data (Except.error "weather api down")) =
      Except.ok [] ∧
    renderWeatherSection (get_weather_data (Except.ok WeatherData.empty)) =
      Except.ok [] ∧
    Section.weatherUnavailable ∉ ([] : List Section) := by
  refine ⟨rfl, rfl, ?_⟩
  simp

/-- C7 (amended): given an empty or failed weather response, `main`
silently omits the weather section — it renders nothing for it and does
not raise — while the empty hotel and flight results do render explicit
"not available" warnings. -/
theorem weather_section_omitted :
    ∀ r : Except Err WeatherData,
      get_weather_data r = WeatherData.empty →
      renderWeatherSection (get_weather_data r) = Except.ok [] ∧
      hotelSections [] = [Section.hotelsUnavailable] ∧
      flightSections [] = [Section.flightsUnavailable] := by
  intro r h
  rw [h]
  exact ⟨rfl, rfl, rfl⟩

/-- C7 witness: instantiated at a failed weather call. -/
theorem weather_section_omitted_witness :
    renderWeatherSection (get_weather_data (Except.error "boom")) =
      Except.ok [] ∧
    hotelSections [] = [Section.hotelsUnavailable] ∧
    flightSections [] = [Section.flightsUnavailable] :=
  weather_section_omitted (Except.error "boom") rfl

/-- An entry of the flights data list with all four sub-objects absent. -/
def emptyFlightEntry : FlightEntry := ⟨none, none, none, none⟩

/-- C8 (counterexample): for an entry with every field absent, the record
`search_flights` builds carries airline name "Unknown Airline" — not
"Unknown" as claimed — while the other three fields do default to
"Unknown". -/
theorem flight_airline_default_cex :
    search_flights (Except.ok ⟨some [emptyFlightEntry]⟩) =
      [{ airline := "Unknown Airline", flight_number := "Unknown",
         departure := "Unknown", arrival := "Unknown" }] ∧
    ("Unknown Airline" : String) ≠ "Unknown" := by
  refine ⟨rfl, ?_⟩
  decide

/-- C8 (amended): in every record built from a flight entry, the four
fields are independently defaulted — whatever the other sub-objects hold
— the flight number, departure and arrival to "Unknown", and the airline
name to "Unknown Airline"; an absent nested field (a present sub-object
without the inner key) gets the same default as an absent sub-object. -/
theorem flight_record_defaults :
    ∀ (a : Option AirlineObj) (fl : Option FlightObj)
      (dp : Option DepartureObj) (ar : Option ArrivalObj),
      ((a = none ∨ a = some ⟨none⟩) →
        (mkFlightRecord ⟨a, fl, dp, ar⟩).airline = "Unknown Airline") ∧
      ((fl = none ∨ fl = some ⟨none⟩) →
        (mkFlightRecord ⟨a, fl, dp, ar⟩).flight_number = "Unknown") ∧
      ((dp = none ∨ dp = some ⟨none⟩) →
        (mkFlightRecord ⟨a, fl, dp, ar⟩).departure = "Unknown") ∧
      ((ar = none ∨ ar = some ⟨none⟩) →
        (mkFlightRecord ⟨a, fl, dp, ar⟩).arrival = "Unknown") := by
  intro a fl dp ar
  refine ⟨?_, ?_, ?_, ?_⟩ <;> rintro (rfl | rfl) <;> rfl

/-- C8 witness: mixed absences — airline and departure sub-objects
absent, flight and arrival sub-objects present but empty — each field
still gets its own default. -/
theorem flight_record_defaults_witness :
    (mkFlightRecord ⟨none, some ⟨none⟩, none, some ⟨none⟩⟩).airline =
      "Unknown Airline" ∧
    (mkFlightRecord ⟨none, some ⟨none⟩, none, some ⟨none⟩⟩).flight_number =
      "Unknown" ∧
    (mkFlightRecord ⟨none, some ⟨none⟩, none, some ⟨none⟩⟩).departure =
      "Unknown" ∧
    (mkFlightRecord ⟨none, some ⟨none⟩, none, some ⟨none⟩⟩).arrival =
      "Unknown" := by
  have h := flight_record_defaults none (some ⟨none⟩) none (some ⟨none⟩)
  exact ⟨h.1 (Or.inl rfl), h.2.1 (Or.inr rfl), h.2.2.1 (Or.inl rfl),
    h.2.2.2 (Or.inr rfl)⟩

/-- C9: the hotel and flight finders are deterministic in their upstream
responses — two runs with the same inputs and the same response payloads
produce field-for-field identical records (both are pure functions of
their arguments; no local randomness exists). -/
theorem finders_deterministic :
    ∀ (city : String) (g : Option Int × Option Int)
      (r₁ r₂ : Except Err OverpassResponse)
      (f₁ f₂ : Except Err FlightsResponse),
      r₁ = r₂ → f₁ = f₂ →
      search_hotels city g r₁ = search_hotels city g r₂ ∧
      search_flights f₁ = search_flights f₂ := by
  intro city g r₁ r₂ f₁ f₂ hr hf
  rw [hr, hf]
  exact ⟨rfl, rfl⟩

/-- C9 witness: two identical concrete runs coincide. -/
theorem finders_deterministic_witness :
    search_hotels "Paris" (some 1, some 2) (Except.ok lateNodeResponse) =
      search_hotels "Paris" (some 1, some 2) (Except.ok lateNodeResponse) ∧
    search_flights (Except.ok ⟨some [emptyFlightEntry]⟩) =
      search_flights (Except.ok ⟨some [emptyFlightEntry]⟩) :=
  finders_deterministic "Paris" (some 1, some 2) (Except.ok lateNodeResponse)
    (Except.ok lateNodeResponse) (Except.ok ⟨some [emptyFlightEntry]⟩)
    (Except.ok ⟨some [emptyFlightEntry]⟩) rfl rfl

end TravelPlanner
